import Mathlib

/-!
Shallow embedding of the `neptune-apex` Rust crate (src/neptune-apex/src/lib.rs),
a session-authenticated REST client for a Neptune Apex aquarium controller.

The embedding models:
* the `Feed` enum with its `u32` discriminants and its serde_repr
  integer codec (`feedToCode` / `feedFromCode`);
* the client state (`Apex` struct fields relevant to the session life
  cycle: `url_base`, `login`, `password`, `session_id`);
* the external collaborators (HTTP transport via `reqwless`, JSON codec
  via `serde_json`) as an oracle `Ctx`: one `Transport` answer per
  network round-trip, plus opaque decode functions for the two response
  shapes the core decodes;
* `Apex::auth` (one login round-trip, storing the decoded
  `connect.sid` token on success);
* `Apex::request` (the bounded `for _ in 0..2` retry loop), returning an
  outcome together with the final state and the trace of network
  round-trips that were attempted (one `Event` per round-trip);
* the domain operation `Apex::feed`.

Rust `.unwrap()` calls on fallible transport operations inside
`Apex::request` are modelled by the distinct outcome `Outcome.crash`
(the Rust program panics there); `?`-propagated errors are modelled by
`ReqError`, mirroring the crate's `Error` enum.
-/

set_option autoImplicit false

namespace NeptuneApex

/-- Result of one network round-trip as reported by the transport
(`reqwless`): either a complete HTTP response (status code and fully
read body bytes, modelled as a string), or a transport-level failure
(connect/send/read error, `reqwless::Error`). -/
inductive Transport where
  | ok (status : Nat) (body : String)
  | err
  deriving DecidableEq

/-- The `reqwless` predicate `Status::is_successful`: the 2xx class. -/
def isSuccessful (s : Nat) : Bool :=
  decide (200 ≤ s) && decide (s < 300)

/-- The `reqwless` status `Status::Forbidden`. -/
def forbiddenStatus : Nat := 403

/-- The crate's `Error` enum (lib.rs lines 17-33), restricted to the
variants the modelled code can produce.  `authentication` is
`Error::Authentication`, `http s` is `Error::Http(status)`, `request` is
`Error::Request(reqwless::Error)`, `json` is `Error::Json(..)`. -/
inductive ReqError where
  | authentication
  | http (status : Nat)
  | request
  | json
  deriving DecidableEq

/-- Feed cycle "name" (lib.rs lines 239-259), an enum with explicit
`u32` discriminants. -/
inductive Feed where
  | Cancel
  | A
  | B
  | C
  | D
  | None
  deriving DecidableEq

/-- The integer code of a `Feed` value: its `repr(u32)` discriminant,
as used by `Serialize_repr` and by `feed as u32`. -/
def feedToCode : Feed → Nat
  | .Cancel => 0
  | .A => 1
  | .B => 2
  | .C => 3
  | .D => 4
  | .None => 256

/-- Decoding an integer code back to a `Feed` value, as generated by
`Deserialize_repr` for `repr(u32)`: the six declared discriminants map
to their variants, every other code is a deserialization error. -/
def feedFromCode (n : Nat) : Option Feed :=
  if n = 0 then some .Cancel
  else if n = 1 then some .A
  else if n = 2 then some .B
  else if n = 3 then some .C
  else if n = 4 then some .D
  else if n = 256 then some .None
  else none

/-- The fields of the `Apex` struct (lib.rs lines 270-276) that the
session life cycle touches.  The `HttpClient` itself is externalised
into `Ctx`. -/
structure ApexState where
  url_base : String
  login : String
  password : String
  session_id : Option String
  deriving DecidableEq

/-- One attempted network round-trip, as recorded for the analysis of
the engine: either the `POST rest/login` of `Apex::auth` (with the
serialized `AuthRequest` body), or an authenticated request carrying
the session cookie. -/
inductive Event where
  | auth (body : String)
  | send (cookie method path : String) (body : Option String)
  deriving DecidableEq

/-- Encoding `serde_json::to_vec(&AuthRequest { login, password, remember_me: false })`
(lib.rs lines 310-316): field order follows the struct declaration. -/
def encodeAuthRequest (login password : String) : String :=
  "\x7b\"login\":\"" ++ login ++ "\",\"password\":\"" ++ password ++
    "\",\"remember_me\":false\x7d"

/-- Encoding `serde_json::to_vec(&FeedRequestResponse { name: feed, active: 1,
error_code: 0, error_message: "" })` (lib.rs lines 408-415):
`Serialize_repr` writes the `Feed` as its bare integer code. -/
def encodeFeedBody (f : Feed) : String :=
  "\x7b\"name\":" ++ toString (feedToCode f) ++
    ",\"active\":1,\"error_code\":0,\"error_message\":\"\"\x7d"

/-- The path argument of `Apex::feed`'s call to `request`:
`format!("rest/status/feed/{}", feed as u32)`. -/
def feedPath (f : Feed) : String :=
  "rest/status/feed/" ++ toString (feedToCode f)

/-- The external collaborators of the core, as oracles:
`oracle n` is the transport's answer to the `n`-th network round-trip
attempted during one engine call; `decodeAuth` models
`serde_json::from_slice::<AuthResponse>` returning the `connect.sid`
field (`none` is a decode failure); `decodeFeed` models
`serde_json::from_slice::<FeedRequestResponse>`. -/
structure Ctx where
  oracle : Nat → Transport
  decodeAuth : String → Option String
  decodeFeed : String → Option (Feed × Nat × Nat × String)

/-- Method `Apex::auth` (lib.rs lines 307-341), with `rt` the index of the one
round-trip it performs.  Transport failures on the request build, send
or body read are `?`-propagated (`Error::Request`); a non-2xx status is
`Error::Http(status)`; a body that does not decode to an `AuthResponse`
is `Error::Json`; on success `self.session_id` is set to the decoded
`connect.sid` token. -/
def auth (ctx : Ctx) (st : ApexState) (rt : Nat) : ApexState × Option ReqError :=
  match ctx.oracle rt with
  | .err => (st, some .request)
  | .ok status body =>
    if isSuccessful status then
      match ctx.decodeAuth body with
      | some sid => ({ st with session_id := some sid }, none)
      | none => (st, some .json)
    else (st, some (.http status))

/-- Result of `Apex::request`: `ok body` is `Ok(&rx_buf[..len])`,
`err e` is `Err(e)`, and `crash` marks the `.unwrap()` panics on
transport failures of the authenticated request (lib.rs lines 362-377). -/
inductive Outcome where
  | ok (body : String)
  | err (e : ReqError)
  | crash
  deriving DecidableEq

/-- Result of one iteration of the `for _ in 0..2` loop in
`Apex::request`: either the call returns (`done`), or the iteration
ends in `continue` (`next`). -/
inductive IterResult where
  | done (o : Outcome) (st : ApexState)
  | next (st : ApexState)

/-- One iteration of the loop body of `Apex::request` (lib.rs lines
351-391), with `rt` the index of the next round-trip.  If no session id
is held, authenticate and `continue` on success.  Otherwise send the
request with the `connect.sid` cookie: 2xx returns the body; a
transport failure panics (`crash`); `403 Forbidden` re-authenticates
and `continue`s on success; any other status returns
`Error::Http(status)`. -/
def requestIter (ctx : Ctx) (method path : String) (body : Option String)
    (st : ApexState) (rt : Nat) : IterResult × List Event :=
  match st.session_id with
  | none =>
    let ev := Event.auth (encodeAuthRequest st.login st.password)
    match auth ctx st rt with
    | (st', none) => (.next st', [ev])
    | (st', some e) => (.done (.err e) st', [ev])
  | some sid =>
    let ev := Event.send ("connect.sid=" ++ sid) method path body
    match ctx.oracle rt with
    | .err => (.done .crash st, [ev])
    | .ok status rbody =>
      if isSuccessful status then
        (.done (.ok rbody) st, [ev])
      else if status = forbiddenStatus then
        let ev2 := Event.auth (encodeAuthRequest st.login st.password)
        match auth ctx st (rt + 1) with
        | (st', none) => (.next st', [ev, ev2])
        | (st', some e) => (.done (.err e) st', [ev, ev2])
      else
        (.done (.err (.http status)) st, [ev])

/-- Method `Apex::request` (lib.rs lines 343-394): the loop runs at most two
iterations; falling out of the loop yields `Err(Error::Authentication)`.
Returns the outcome, the final client state, and the trace of attempted
network round-trips. -/
def request (ctx : Ctx) (method path : String) (body : Option String)
    (st : ApexState) : Outcome × ApexState × List Event :=
  match requestIter ctx method path body st 0 with
  | (.done o st', ev) => (o, st', ev)
  | (.next st1, ev1) =>
    match requestIter ctx method path body st1 ev1.length with
    | (.done o st', ev2) => (o, st', ev1 ++ ev2)
    | (.next st2, ev2) => (.err .authentication, st2, ev1 ++ ev2)

/-- Result of `Apex::feed`: `Ok(())`, an error, or a panic propagated
from `request`. -/
inductive FeedResult where
  | ok
  | err (e : ReqError)
  | crash
  deriving DecidableEq

/-- Method `Apex::feed` (lib.rs lines 407-427): encode the
`FeedRequestResponse` body, `PUT` it to `rest/status/feed/<code>`,
decode the echoed confirmation record and discard it; a decode failure
is propagated as `Error::Json`. -/
def feed (ctx : Ctx) (st : ApexState) (f : Feed) :
    FeedResult × ApexState × List Event :=
  match request ctx "PUT" (feedPath f) (some (encodeFeedBody f)) st with
  | (.ok data, st', tr) =>
    match ctx.decodeFeed data with
    | some _ => (.ok, st', tr)
    | none => (.err .json, st', tr)
  | (.err e, st', tr) => (.err e, st', tr)
  | (.crash, st', tr) => (.crash, st', tr)

/-- Helper: every error path of `auth` returns before the assignment to
`self.session_id`, so the state is returned unchanged. -/
theorem auth_error_state (ctx : Ctx) (st : ApexState) (rt : Nat)
    (st' : ApexState) (e : ReqError) (h : auth ctx st rt = (st', some e)) :
    st' = st := by
  unfold auth at h
  split at h
  · exact (congrArg Prod.fst h).symm
  · split at h
    · split at h
      · simp at h
      · exact (congrArg Prod.fst h).symm
    · exact (congrArg Prod.fst h).symm

/-- Helper: a successful `auth` consumed one 2xx round-trip whose body
decoded to a session token, and stored exactly that token. -/
theorem auth_ok_spec (ctx : Ctx) (st : ApexState) (rt : Nat)
    (st' : ApexState) (h : auth ctx st rt = (st', none)) :
    ∃ status body sid, ctx.oracle rt = Transport.ok status body ∧
      isSuccessful status = true ∧ ctx.decodeAuth body = some sid ∧
      st' = { st with session_id := some sid } := by
  unfold auth at h
  split at h
  · simp at h
  · rename_i status body heq
    split at h
    · rename_i hsucc
      split at h
      · rename_i sid hdec
        exact ⟨status, body, sid, heq, hsucc, hdec, (Prod.mk.injEq .. ▸ h).1.symm⟩
      · simp at h
    · simp at h

/-- Helper: an iteration of the retry loop ends in `continue` only via
a successful authentication, so the state it hands to the next
iteration holds a session token. -/
theorem requestIter_next_session (ctx : Ctx) (m p : String)
    (b : Option String) (st : ApexState) (rt : Nat) (st' : ApexState)
    (ev : List Event) (h : requestIter ctx m p b st rt = (.next st', ev)) :
    ∃ sid, st'.session_id = some sid := by
  unfold requestIter at h
  split at h
  · split at h
    · rename_i st2 ha
      obtain ⟨status, body, sid, -, -, -, hst⟩ := auth_ok_spec ctx st rt st2 ha
      simp only [Prod.mk.injEq, IterResult.next.injEq] at h
      obtain ⟨hst2, -⟩ := h
      exact ⟨sid, by rw [← hst2, hst]⟩
    · simp at h
  · split at h
    · simp at h
    · split at h
      · simp at h
      · split at h
        · split at h
          · rename_i st2 ha
            obtain ⟨status, body, sid, -, -, -, hst⟩ := auth_ok_spec ctx st (rt + 1) st2 ha
            simp only [Prod.mk.injEq, IterResult.next.injEq] at h
            obtain ⟨hst2, -⟩ := h
            exact ⟨sid, by rw [← hst2, hst]⟩
          · simp at h
        · simp at h

/-- Helper: every iteration of the retry loop attempts one or two
network round-trips. -/
theorem requestIter_ev_len (ctx : Ctx) (m p : String) (b : Option String)
    (st : ApexState) (rt : Nat) :
    1 ≤ (requestIter ctx m p b st rt).2.length ∧
    (requestIter ctx m p b st rt).2.length ≤ 2 := by
  unfold requestIter
  split
  · split <;> simp
  · split
    · simp
    · split
      · simp
      · split
        · split <;> simp
        · simp

/-- A client state with no stored session token (cold start). -/
def stCold : ApexState :=
  { url_base := "http://apex/", login := "l", password := "p",
    session_id := none }

/-- A client state holding the session token `"tok"`. -/
def stTok : ApexState :=
  { url_base := "http://apex/", login := "l", password := "p",
    session_id := some "tok" }

/-- Builds a context from a transport script, with an identity auth
codec (the response body is the token) and a constant feed codec. -/
def mkCtx (o : Nat → Transport) : Ctx :=
  { oracle := o, decodeAuth := fun s => some s,
    decodeFeed := fun _ => some (.A, 1, 0, "") }

/-- Scenario: the transport fails on every round-trip. -/
def ctxDown : Ctx := mkCtx fun _ => .err

/-- Scenario: every round-trip answers `200` with body `"sid123"`. -/
def ctxLogin : Ctx := mkCtx fun _ => .ok 200 "sid123"

/-- Scenario: login succeeds with token `"T1"`, the authenticated
request is rejected with `403`, the re-login succeeds with token
`"T2"`. -/
def ctxExhaust : Ctx := mkCtx fun n =>
  match n with
  | 0 => .ok 200 "T1"
  | 1 => .ok 403 "denied"
  | _ => .ok 200 "T2"

/-- Claim C10: every error-returning execution of `auth` leaves the
stored session credential exactly as it was before the call; the
session store is mutated only after the whole exchange succeeded. -/
theorem auth_error_preserves_state (ctx : Ctx) (st : ApexState) (rt : Nat)
    (st' : ApexState) (e : ReqError) (h : auth ctx st rt = (st', some e)) :
    st' = st ∧ st'.session_id = st.session_id := by
  have hst := auth_error_state ctx st rt st' e h
  exact ⟨hst, by rw [hst]⟩

/-- Witness for C10: a transport failure on the login round-trip
returns `Error::Request` and leaves the state untouched. -/
theorem auth_error_preserves_state_witness :
    stTok = stTok ∧ stTok.session_id = stTok.session_id :=
  auth_error_preserves_state ctxDown stTok 0 stTok .request rfl

/-- Claim C6: if `auth` succeeds, the session store subsequently holds
a credential, and the stored token equals the `connect.sid` field
decoded from the login response body. -/
theorem auth_success_stores_token (ctx : Ctx) (st : ApexState) (rt : Nat)
    (st' : ApexState) (h : auth ctx st rt = (st', none)) :
    st'.session_id.isSome = true ∧
    ∃ status body sid, ctx.oracle rt = Transport.ok status body ∧
      isSuccessful status = true ∧ ctx.decodeAuth body = some sid ∧
      st'.session_id = some sid := by
  obtain ⟨status, body, sid, ho, hs, hd, rfl⟩ := auth_ok_spec ctx st rt st' h
  exact ⟨rfl, status, body, sid, ho, hs, hd, rfl⟩

/-- Witness for C6: a `200` login answer with body `"sid123"` stores
the decoded token `"sid123"`. -/
theorem auth_success_stores_token_witness :
    ({ stCold with session_id := some "sid123" } : ApexState).session_id.isSome = true ∧
    ∃ status body sid, ctxLogin.oracle 0 = Transport.ok status body ∧
      isSuccessful status = true ∧ ctxLogin.decodeAuth body = some sid ∧
      ({ stCold with session_id := some "sid123" } : ApexState).session_id = some sid :=
  auth_success_stores_token ctxLogin stCold 0
    { stCold with session_id := some "sid123" } rfl

/-- Claim C2 (amended): exhausting both loop iterations yields
`Err(Error::Authentication)`, and the session store then holds the
token obtained by the final successful (re-)authentication — it is
`Some`, not `None`. -/
theorem request_exhaustion_result (ctx : Ctx) (m p : String)
    (b : Option String) (st st1 st2 : ApexState) (ev1 ev2 : List Event)
    (h1 : requestIter ctx m p b st 0 = (.next st1, ev1))
    (h2 : requestIter ctx m p b st1 ev1.length = (.next st2, ev2)) :
    request ctx m p b st = (.err .authentication, st2, ev1 ++ ev2) ∧
    ∃ sid, st2.session_id = some sid := by
  constructor
  · unfold request
    simp only [h1, h2]
  · exact requestIter_next_session ctx m p b st1 ev1.length st2 ev2 h2

/-- Witness for C2 (amended), on the `ctxExhaust` scenario: login gives
`"T1"`, the request is rejected with `403`, the re-login gives `"T2"`,
the loop exhausts; the result is `Error::Authentication` with the
store holding `"T2"`. -/
theorem request_exhaustion_result_witness :
    request ctxExhaust "GET" "rest/status" Option.none stCold =
      (.err .authentication, { stCold with session_id := some "T2" },
        [Event.auth (encodeAuthRequest "l" "p")] ++
          [Event.send ("connect.sid=" ++ "T1") "GET" "rest/status" Option.none,
           Event.auth (encodeAuthRequest "l" "p")]) ∧
    ∃ sid, ({ stCold with session_id := some "T2" } : ApexState).session_id = some sid :=
  request_exhaustion_result ctxExhaust "GET" "rest/status" Option.none stCold
    { stCold with session_id := some "T1" }
    { stCold with session_id := some "T2" }
    [Event.auth (encodeAuthRequest "l" "p")]
    [Event.send ("connect.sid=" ++ "T1") "GET" "rest/status" Option.none,
     Event.auth (encodeAuthRequest "l" "p")]
    rfl rfl

/-- Counterexample to C2 as stated: on the `ctxExhaust` scenario the
exhausted call does yield `Error::Authentication`, but the session
store ends the call holding `some "T2"` — not in the "no credential"
state the claim asserts. -/
theorem request_exhaustion_none_claim_false :
    (request ctxExhaust "GET" "rest/status" Option.none stCold).1 =
      Outcome.err ReqError.authentication ∧
    (request ctxExhaust "GET" "rest/status" Option.none stCold).2.1.session_id =
      some "T2" ∧
    (request ctxExhaust "GET" "rest/status" Option.none stCold).2.1.session_id ≠
      Option.none := by
  refine ⟨rfl, rfl, ?_⟩
  intro hnone
  exact Option.noConfusion
    ((rfl : (request ctxExhaust "GET" "rest/status" Option.none stCold).2.1.session_id =
        some "T2").symm.trans hnone)

/-- Helper: an iteration attempting two round-trips is the
`403 Forbidden` re-authentication path: the state held a token and the
iteration's first round-trip answered `403`. -/
theorem requestIter_two_ev (ctx : Ctx) (m p : String) (b : Option String)
    (st : ApexState) (rt : Nat)
    (h : 2 ≤ (requestIter ctx m p b st rt).2.length) :
    ∃ sid bd, st.session_id = some sid ∧
      ctx.oracle rt = Transport.ok forbiddenStatus bd := by
  unfold requestIter at h
  split at h
  · split at h <;> simp at h
  · rename_i sid hsid
    split at h
    · simp at h
    · rename_i status rbody ho
      split at h
      · simp at h
      · split at h
        · rename_i h403
          exact ⟨sid, rbody, hsid, h403 ▸ ho⟩
        · simp at h

/-- Helper: an iteration ends in `continue` only when it started with
no stored token, or its first round-trip answered `403 Forbidden`. -/
theorem requestIter_next_reason (ctx : Ctx) (m p : String)
    (b : Option String) (st : ApexState) (rt : Nat) (st' : ApexState)
    (ev : List Event) (h : requestIter ctx m p b st rt = (.next st', ev)) :
    st.session_id = none ∨
      ∃ bd, ctx.oracle rt = Transport.ok forbiddenStatus bd := by
  unfold requestIter at h
  split at h
  · rename_i hsid
    exact Or.inl hsid
  · split at h
    · simp at h
    · rename_i status rbody ho
      split at h
      · simp at h
      · split at h
        · rename_i h403
          exact Or.inr ⟨rbody, h403 ▸ ho⟩
        · simp at h

/-- Scenario: the stored token is rejected with `403`, the re-login
succeeds with `"t1"`, the retried request is rejected with `403`
again, and the second re-login succeeds with `"t2"`. -/
def ctxFour : Ctx := mkCtx fun n =>
  match n with
  | 0 => .ok 403 "a"
  | 1 => .ok 200 "t1"
  | 2 => .ok 403 "c"
  | _ => .ok 200 "t2"

/-- Claim C1 (amended): every `request` call attempts between one and
four network round-trips, and any round-trip beyond the first occurs
only when the call started without a stored credential or the first
round-trip answered `403 Forbidden`. -/
theorem request_roundtrip_bounds (ctx : Ctx) (m p : String)
    (b : Option String) (st : ApexState) :
    1 ≤ (request ctx m p b st).2.2.length ∧
    (request ctx m p b st).2.2.length ≤ 4 ∧
    (2 ≤ (request ctx m p b st).2.2.length →
      st.session_id = none ∨
        ∃ bd, ctx.oracle 0 = Transport.ok forbiddenStatus bd) := by
  unfold request
  split
  · rename_i o st' ev heq
    have hlen := requestIter_ev_len ctx m p b st 0
    have htwo := requestIter_two_ev ctx m p b st 0
    rw [heq] at hlen htwo
    simp only at hlen htwo ⊢
    refine ⟨hlen.1, le_trans hlen.2 (by omega), ?_⟩
    intro h2
    obtain ⟨sid, bd, -, ho⟩ := htwo h2
    exact Or.inr ⟨bd, ho⟩
  · rename_i st1 ev1 heq1
    have hlen1 := requestIter_ev_len ctx m p b st 0
    rw [heq1] at hlen1
    simp only at hlen1
    have hreason := requestIter_next_reason ctx m p b st 0 st1 ev1 heq1
    split
    · rename_i o st' ev2 heq2
      have hlen2 := requestIter_ev_len ctx m p b st1 ev1.length
      rw [heq2] at hlen2
      simp only at hlen2
      simp only [List.length_append]
      exact ⟨by omega, by omega, fun _ => hreason⟩
    · rename_i st2 ev2 heq2
      have hlen2 := requestIter_ev_len ctx m p b st1 ev1.length
      rw [heq2] at hlen2
      simp only at hlen2
      simp only [List.length_append]
      exact ⟨by omega, by omega, fun _ => hreason⟩

/-- Witness for C1 (amended) on the `ctxFour` scenario: four
round-trips are attempted, which is within the bound, and the first
answer was indeed `403 Forbidden`. -/
theorem request_roundtrip_bounds_witness :
    1 ≤ (request ctxFour "GET" "rest/status" Option.none stTok).2.2.length ∧
    (request ctxFour "GET" "rest/status" Option.none stTok).2.2.length ≤ 4 ∧
    (stTok.session_id = none ∨
      ∃ bd, ctxFour.oracle 0 = Transport.ok forbiddenStatus bd) := by
  obtain ⟨h1, h2, h3⟩ :=
    request_roundtrip_bounds ctxFour "GET" "rest/status" Option.none stTok
  exact ⟨h1, h2, h3 (by decide)⟩

/-- Counterexample to C1 as stated: on the `ctxFour` scenario a single
`request` call attempts four network round-trips, not at most two. -/
theorem request_two_roundtrip_claim_false :
    (request ctxFour "GET" "rest/status" Option.none stTok).2.2.length = 4 ∧
    ¬ ((request ctxFour "GET" "rest/status" Option.none stTok).2.2.length ≤ 2) := by
  refine ⟨rfl, ?_⟩
  intro hle
  have h4 :
      (request ctxFour "GET" "rest/status" Option.none stTok).2.2.length = 4 := rfl
  omega

/-- Helper: when the state holds a session token, the iteration's
first round-trip is the authenticated request carrying the
`connect.sid` cookie. -/
theorem requestIter_send_head (ctx : Ctx) (m p : String) (b : Option String)
    (st : ApexState) (rt : Nat) (sid : String)
    (hsid : st.session_id = some sid) :
    ∃ tail, (requestIter ctx m p b st rt).2 =
      Event.send ("connect.sid=" ++ sid) m p b :: tail := by
  unfold requestIter
  split
  · rename_i hnone
    rw [hnone] at hsid
    exact absurd hsid (by simp)
  · rename_i sid2 hsid2
    obtain rfl : sid2 = sid := by
      have := hsid2.symm.trans hsid
      injection this
    split
    · exact ⟨[], rfl⟩
    · split
      · exact ⟨[], rfl⟩
      · split
        · split <;>
            exact ⟨[Event.auth (encodeAuthRequest st.login st.password)], rfl⟩
        · exact ⟨[], rfl⟩

/-- Helper: when the first loop iteration ends in `continue`, the trace
of the whole call is that iteration's trace followed by the second
iteration's trace. -/
theorem request_trace_next (ctx : Ctx) (m p : String) (b : Option String)
    (st st1 : ApexState) (ev1 : List Event)
    (h1 : requestIter ctx m p b st 0 = (.next st1, ev1)) :
    (request ctx m p b st).2.2 =
      ev1 ++ (requestIter ctx m p b st1 ev1.length).2 := by
  unfold request
  simp only [h1]
  rcases h2 : requestIter ctx m p b st1 ev1.length with ⟨r, ev2⟩
  cases r <;> simp

/-- Claim C3 (amended): when the first authenticated attempt is
rejected with `403 Forbidden`, the engine re-authenticates before the
retry, overwriting — not clearing — the stored credential with the
token decoded from the re-login response; the retried request's cookie
carries exactly that newly returned token (which may coincide with the
pre-failure token). -/
theorem forbidden_overwrites_credential (ctx : Ctx) (m p : String)
    (b : Option String) (st : ApexState) (sid0 b0 : String) (s1 : Nat)
    (b1 newSid : String)
    (hsid : st.session_id = some sid0)
    (h0 : ctx.oracle 0 = Transport.ok forbiddenStatus b0)
    (h1 : ctx.oracle 1 = Transport.ok s1 b1)
    (hs1 : isSuccessful s1 = true)
    (hdec : ctx.decodeAuth b1 = some newSid) :
    requestIter ctx m p b st 0 =
      (.next { st with session_id := some newSid },
       [Event.send ("connect.sid=" ++ sid0) m p b,
        Event.auth (encodeAuthRequest st.login st.password)]) ∧
    ∃ tail, (request ctx m p b st).2.2 =
      Event.send ("connect.sid=" ++ sid0) m p b ::
      Event.auth (encodeAuthRequest st.login st.password) ::
      Event.send ("connect.sid=" ++ newSid) m p b :: tail := by
  have ha : auth ctx st 1 = ({ st with session_id := some newSid }, none) := by
    unfold auth
    rw [h1]
    simp [hs1, hdec]
  have hfb : isSuccessful forbiddenStatus = false := rfl
  have hfirst : requestIter ctx m p b st 0 =
      (.next { st with session_id := some newSid },
       [Event.send ("connect.sid=" ++ sid0) m p b,
        Event.auth (encodeAuthRequest st.login st.password)]) := by
    unfold requestIter
    rw [hsid]
    simp only [h0, hfb, ha]
    simp
  refine ⟨hfirst, ?_⟩
  obtain ⟨tail, htail⟩ := requestIter_send_head ctx m p b
    { st with session_id := some newSid }
    ([Event.send ("connect.sid=" ++ sid0) m p b,
      Event.auth (encodeAuthRequest st.login st.password)] : List Event).length
    newSid rfl
  refine ⟨tail, ?_⟩
  rw [request_trace_next ctx m p b st _ _ hfirst, htail]
  simp

/-- Scenario: the stored stale token is rejected with `403`, and the
re-login hands back the very same token. -/
def ctxStale : Ctx := mkCtx fun n =>
  match n with
  | 0 => .ok 403 "f"
  | 1 => .ok 200 "stale"
  | _ => .ok 200 "done"

/-- Scenario: the stored stale token is rejected with `403`, and the
re-login hands back the fresh token `"fresh"`. -/
def ctxFresh : Ctx := mkCtx fun n =>
  match n with
  | 0 => .ok 403 "f"
  | 1 => .ok 200 "fresh"
  | _ => .ok 200 "done"

/-- A client state holding the session token `"stale"`. -/
def stStale : ApexState :=
  { url_base := "http://apex/", login := "l", password := "p",
    session_id := some "stale" }

/-- Witness for C3 (amended) on the `ctxFresh` scenario: after the
`403`, the store is overwritten with `"fresh"` and the retry carries
`connect.sid=fresh`. -/
theorem forbidden_overwrites_credential_witness :
    requestIter ctxFresh "GET" "rest/status" Option.none stStale 0 =
      (.next { stStale with session_id := some "fresh" },
       [Event.send ("connect.sid=" ++ "stale") "GET" "rest/status" Option.none,
        Event.auth (encodeAuthRequest "l" "p")]) ∧
    ∃ tail, (request ctxFresh "GET" "rest/status" Option.none stStale).2.2 =
      Event.send ("connect.sid=" ++ "stale") "GET" "rest/status" Option.none ::
      Event.auth (encodeAuthRequest "l" "p") ::
      Event.send ("connect.sid=" ++ "fresh") "GET" "rest/status" Option.none ::
      tail :=
  forbidden_overwrites_credential ctxFresh "GET" "rest/status" Option.none
    stStale "stale" "f" 200 "fresh" "fresh" rfl rfl rfl rfl rfl

/-- Counterexample to C3 as stated: on the `ctxStale` scenario the
re-login returns the very token that was just rejected; the retried
request's cookie then carries exactly the stale (pre-failure) token,
and the state handed to the retry still holds `some "stale"` — the
credential is never cleared between the `403` and the retry. -/
theorem forbidden_clear_claim_false :
    (request ctxStale "GET" "rest/status" Option.none stStale).2.2 =
      [Event.send ("connect.sid=" ++ "stale") "GET" "rest/status" Option.none,
       Event.auth (encodeAuthRequest "l" "p"),
       Event.send ("connect.sid=" ++ "stale") "GET" "rest/status" Option.none] ∧
    (requestIter ctxStale "GET" "rest/status" Option.none stStale 0).1 =
      IterResult.next { stStale with session_id := some "stale" } :=
  ⟨rfl, rfl⟩

/-- Claim C4 evaluated at the failing input (the claim is right, the
code is wrong): with a stored token and a transport-level failure on
the authenticated round-trip, `Apex::request` `.unwrap()`s the
`reqwless` error and panics (`crash`) instead of surfacing
`Error::Request`; by contrast, a transport failure during the login
round-trip of the missing-credential path is surfaced as
`Error::Request` without any retry, as the claim states. -/
theorem transport_failure_crashes :
    request ctxDown "GET" "rest/status" Option.none stTok =
      (Outcome.crash, stTok,
       [Event.send ("connect.sid=" ++ "tok") "GET" "rest/status" Option.none]) ∧
    (request ctxDown "GET" "rest/status" Option.none stTok).1 ≠
      Outcome.err ReqError.request ∧
    request ctxDown "GET" "rest/status" Option.none stCold =
      (Outcome.err ReqError.request, stCold,
       [Event.auth (encodeAuthRequest "l" "p")]) := by
  refine ⟨rfl, ?_, rfl⟩
  intro h
  exact Outcome.noConfusion
    ((rfl : (request ctxDown "GET" "rest/status" Option.none stTok).1 =
        Outcome.crash).symm.trans h)

/-- Claim C5: each of the six defined `Feed` variants round-trips
through its integer encoding, with the codes Cancel = 0, A = 1, B = 2,
C = 3, D = 4, None = 256. -/
theorem feed_code_round_trip :
    feedToCode .Cancel = 0 ∧ feedToCode .A = 1 ∧ feedToCode .B = 2 ∧
    feedToCode .C = 3 ∧ feedToCode .D = 4 ∧ feedToCode .None = 256 ∧
    ∀ f : Feed, feedFromCode (feedToCode f) = some f := by
  refine ⟨rfl, rfl, rfl, rfl, rfl, rfl, ?_⟩
  intro f
  cases f <;> rfl

/-- Claim C9: decoding any integer code outside {0, 1, 2, 3, 4, 256}
fails with a decode error (`none`) rather than defaulting to some
variant. -/
theorem feedFromCode_unknown_none (n : Nat)
    (h : n ∉ ([0, 1, 2, 3, 4, 256] : List Nat)) :
    feedFromCode n = none := by
  simp only [List.mem_cons, List.mem_singleton, not_or] at h
  obtain ⟨h0, h1, h2, h3, h4, h256⟩ := h
  simp [feedFromCode, h0, h1, h2, h3, h4, h256]

/-- Witness for C9 at the concrete unknown code 5. -/
theorem feedFromCode_unknown_none_witness :
    feedFromCode 5 = none :=
  feedFromCode_unknown_none 5 (by decide)

/-- Scenario: every round-trip answers `500` with body `"oops"`. -/
def ctx500 : Ctx := mkCtx fun _ => .ok 500 "oops"

/-- Claim C7: on every reachable authenticated attempt — the first
attempt of a call holding a token, the attempt after authenticating on
a missing credential, and the retry after a `403` re-authentication —
a non-2xx status other than `403 Forbidden` makes the call fail
immediately with `Error::Http(status)` carrying that status, with no
retry and no further network round-trips (the trace ends at that
attempt). -/
theorem http_error_not_retried (ctx : Ctx) (m p : String)
    (b : Option String) (st : ApexState) :
    (∀ sid s bd, st.session_id = some sid →
      ctx.oracle 0 = Transport.ok s bd → isSuccessful s = false →
      s ≠ forbiddenStatus →
      request ctx m p b st =
        (.err (.http s), st,
         [Event.send ("connect.sid=" ++ sid) m p b])) ∧
    (∀ s0 b0 sid s bd, st.session_id = none →
      ctx.oracle 0 = Transport.ok s0 b0 → isSuccessful s0 = true →
      ctx.decodeAuth b0 = some sid →
      ctx.oracle 1 = Transport.ok s bd → isSuccessful s = false →
      s ≠ forbiddenStatus →
      request ctx m p b st =
        (.err (.http s), { st with session_id := some sid },
         [Event.auth (encodeAuthRequest st.login st.password),
          Event.send ("connect.sid=" ++ sid) m p b])) ∧
    (∀ sid0 b0 s1 b1 sid s bd, st.session_id = some sid0 →
      ctx.oracle 0 = Transport.ok forbiddenStatus b0 →
      ctx.oracle 1 = Transport.ok s1 b1 → isSuccessful s1 = true →
      ctx.decodeAuth b1 = some sid →
      ctx.oracle 2 = Transport.ok s bd → isSuccessful s = false →
      s ≠ forbiddenStatus →
      request ctx m p b st =
        (.err (.http s), { st with session_id := some sid },
         [Event.send ("connect.sid=" ++ sid0) m p b,
          Event.auth (encodeAuthRequest st.login st.password),
          Event.send ("connect.sid=" ++ sid) m p b])) := by
  have hfb : isSuccessful forbiddenStatus = false := rfl
  refine ⟨?_, ?_, ?_⟩
  · intro sid s bd hsid h0 hs hnf
    unfold request requestIter
    rw [hsid]
    simp [h0, hs, hnf]
  · intro s0 b0 sid s bd hsid h0 hs0 hdec h1 hs hnf
    have ha : auth ctx st 0 = ({ st with session_id := some sid }, none) := by
      unfold auth
      rw [h0]
      simp [hs0, hdec]
    unfold request requestIter
    rw [hsid]
    simp [ha, h1, hs, hnf]
  · intro sid0 b0 s1 b1 sid s bd hsid h0 h1 hs1 hdec h2 hs hnf
    have ha : auth ctx st 1 = ({ st with session_id := some sid }, none) := by
      unfold auth
      rw [h1]
      simp [hs1, hdec]
    unfold request requestIter
    rw [hsid]
    simp [h0, hfb, ha, h2, hs, hnf]

/-- Witness for C7 on the `ctx500` scenario: the `500` answer to the
first authenticated attempt yields `Error::Http(500)` after exactly
one round-trip. -/
theorem http_error_not_retried_witness :
    request ctx500 "GET" "rest/status" Option.none stTok =
      (.err (.http 500), stTok,
       [Event.send ("connect.sid=" ++ "tok") "GET" "rest/status" Option.none]) :=
  (http_error_not_retried ctx500 "GET" "rest/status" Option.none stTok).1
    "tok" 500 "oops" rfl rfl rfl (by decide)

/-- Helper: every authenticated request sent by an iteration of the
retry loop uses exactly the method, path and body the engine was called
with. -/
theorem requestIter_send_args (ctx : Ctx) (m p : String) (b : Option String)
    (st : ApexState) (rt : Nat) :
    ∀ e ∈ (requestIter ctx m p b st rt).2, ∀ c m' p' b',
      e = Event.send c m' p' b' → m' = m ∧ p' = p ∧ b' = b := by
  intro e he c m' p' b' hee
  subst hee
  revert he
  unfold requestIter
  split
  · split <;> (intro he; simp at he)
  · split
    · intro he
      simp at he
      tauto
    · split
      · intro he
        simp at he
        tauto
      · split
        · split <;> (intro he; simp at he; tauto)
        · intro he
          simp at he
          tauto

/-- Helper: every authenticated request sent during a `request` call
uses exactly the method, path and body the engine was called with. -/
theorem request_send_args (ctx : Ctx) (m p : String) (b : Option String)
    (st : ApexState) :
    ∀ e ∈ (request ctx m p b st).2.2, ∀ c m' p' b',
      e = Event.send c m' p' b' → m' = m ∧ p' = p ∧ b' = b := by
  intro e he c m' p' b' hee
  unfold request at he
  rcases h1 : requestIter ctx m p b st 0 with ⟨r1, ev1⟩
  rw [h1] at he
  cases r1 with
  | done o st' =>
    simp only at he
    have hargs := requestIter_send_args ctx m p b st 0
    rw [h1] at hargs
    exact hargs e he c m' p' b' hee
  | next st1 =>
    simp only at he
    rcases h2 : requestIter ctx m p b st1 ev1.length with ⟨r2, ev2⟩
    rw [h2] at he
    have hargs1 := requestIter_send_args ctx m p b st 0
    rw [h1] at hargs1
    have hargs2 := requestIter_send_args ctx m p b st1 ev1.length
    rw [h2] at hargs2
    cases r2 with
    | done o st' =>
      simp only at he
      rcases List.mem_append.1 he with hm | hm
      · exact hargs1 e hm c m' p' b' hee
      · exact hargs2 e hm c m' p' b' hee
    | next st2 =>
      simp only at he
      rcases List.mem_append.1 he with hm | hm
      · exact hargs1 e hm c m' p' b' hee
      · exact hargs2 e hm c m' p' b' hee

/-- Helper: `Apex::feed` passes the state and the trace of its inner
`request` call through unchanged. -/
theorem feed_components (ctx : Ctx) (st : ApexState) (f : Feed) :
    (feed ctx st f).2.2 =
      (request ctx "PUT" (feedPath f) (some (encodeFeedBody f)) st).2.2 ∧
    (feed ctx st f).2.1 =
      (request ctx "PUT" (feedPath f) (some (encodeFeedBody f)) st).2.1 := by
  unfold feed
  rcases h : request ctx "PUT" (feedPath f) (some (encodeFeedBody f)) st with ⟨o, st', tr⟩
  cases o with
  | ok d => cases hd : ctx.decodeFeed d <;> simp [hd]
  | err e => simp
  | crash => simp

/-- Claim C8: `Apex::feed` issues a `PUT` to
`rest/status/feed/<feed-code>` whose body is the encoded
`{name, active: 1, error_code: 0, error_message: ""}` record — every
round-trip its call sends uses exactly that method, path and body —
and it decodes and discards the echoed confirmation record, mapping a
decode failure to `Error::Json` and decode success to `Ok(())`. -/
theorem feed_command_shape (ctx : Ctx) (st : ApexState) (f : Feed) :
    (∀ e ∈ (feed ctx st f).2.2, ∀ c m' p' b', e = Event.send c m' p' b' →
        m' = "PUT" ∧ p' = feedPath f ∧ b' = some (encodeFeedBody f)) ∧
    (∀ d st' tr,
      request ctx "PUT" (feedPath f) (some (encodeFeedBody f)) st =
        (.ok d, st', tr) →
      (ctx.decodeFeed d = none → feed ctx st f = (.err .json, st', tr)) ∧
      ∀ r, ctx.decodeFeed d = some r → feed ctx st f = (.ok, st', tr)) ∧
    (∀ e st' tr,
      request ctx "PUT" (feedPath f) (some (encodeFeedBody f)) st =
        (.err e, st', tr) →
      feed ctx st f = (.err e, st', tr)) := by
  refine ⟨?_, ?_, ?_⟩
  · intro e he c m' p' b' hee
    rw [(feed_components ctx st f).1] at he
    exact request_send_args ctx "PUT" (feedPath f) (some (encodeFeedBody f))
      st e he c m' p' b' hee
  · intro d st' tr h
    constructor
    · intro hnone
      unfold feed
      rw [h]
      simp [hnone]
    · intro r hr
      unfold feed
      rw [h]
      simp [hr]
  · intro e st' tr h
    unfold feed
    rw [h]

/-- Scenario: every round-trip answers `200` with body `"echo"`, and
the feed codec accepts the echoed record. -/
def ctxFeedOk : Ctx := mkCtx fun _ => .ok 200 "echo"

/-- Witness for C8 on the `ctxFeedOk` scenario: `feed` for cycle `A`
succeeds after one `PUT` round-trip to `rest/status/feed/1` carrying
the encoded body. -/
theorem feed_command_shape_witness :
    feed ctxFeedOk stTok Feed.A =
      (.ok, stTok,
       [Event.send ("connect.sid=" ++ "tok") "PUT" (feedPath Feed.A)
          (some (encodeFeedBody Feed.A))]) :=
  ((feed_command_shape ctxFeedOk stTok Feed.A).2.1 "echo" stTok
      [Event.send ("connect.sid=" ++ "tok") "PUT" (feedPath Feed.A)
        (some (encodeFeedBody Feed.A))] rfl).2 (Feed.A, 1, 0, "") rfl

end NeptuneApex
